import Mathlib

/-!
Verification of the cpdb-rs specification against its source.

The Rust sources are shallowly embedded: each wrapper operation of
src/src/{error,job,printer,frontend,settings,util}.rs becomes a Lean
function over explicit state, with the replies of the native cpdb
entry points passed in as arguments (the native library is a black
box; the wrapper only ever observes those replies).  Raw C pointers
are modelled as `Option Nat` (`none` is the null pointer), C strings
as an explicit value type, and where a claim is about which native
calls a wrapper performs, the operation additionally returns the list
of native calls it made, in order.
-/

namespace Cpdb

/-- The error enum of src/src/error.rs (`CpdbError`), one constructor per
variant.  `Utf8Error` and `NulError` carry their std payloads in Rust;
the payloads play no role in any claim, so they are elided here.
`ObjectNotFound` is not declared in error.rs, but
src/src/frontend.rs's `get_printer` constructs
`CpdbError::ObjectNotFound { object_description }` regardless (the
crate does not compile as written); it is included so that
frontend.rs's behaviour is representable. -/
inductive CpdbError where
  | NullPointer
  | InvalidPrinter
  | JobFailed (detail : String)
  | BackendError (detail : String)
  | FrontendError (detail : String)
  | OptionError (detail : String)
  | CupsError (code : Int)
  | Utf8Error
  | NulError
  | Unsupported
  | ChannelError
  | ObjectNotFound (object_description : String)
  deriving DecidableEq, Repr

/-- Rust's `Result<T> = Result<T, CpdbError>` from error.rs. -/
abbrev Result (α : Type) : Type := Except CpdbError α

/-- `CpdbError::from_status` (error.rs lines 34-41): the fixed
status-code table `0 => NullPointer, 1 => InvalidPrinter,
2 => JobFailed(context), _ => BackendError("Unknown error: {status}")`.
(The spec's taxonomy calls the null-pointer kind `NullHandle`; the
enum's name for that kind is `NullPointer`.) -/
def CpdbError.from_status (status : Int) (context : String) : CpdbError :=
  if status = 0 then CpdbError.NullPointer
  else if status = 1 then CpdbError.InvalidPrinter
  else if status = 2 then CpdbError.JobFailed context
  else CpdbError.BackendError ("Unknown error: " ++ toString status)

end Cpdb

namespace Cpdb

/-- C7 heap model: the pool of C string buffers allocated by
`CString::new`.  `next` is the next fresh buffer id, `live` maps the
ids of currently allocated (not yet freed) buffers to their contents.
Dereferencing a freed (dangling) id yields nothing. -/
structure CHeap where
  next : Nat
  live : List (Nat × String)
  deriving DecidableEq, Repr

/-- Allocate a `CString` buffer holding `s`; returns its id. -/
def CHeap.alloc (h : CHeap) (s : String) : Nat × CHeap :=
  (h.next, ⟨h.next + 1, (h.next, s) :: h.live⟩)

/-- Free one buffer (what dropping the owning `CString` does). -/
def CHeap.free (h : CHeap) (p : Nat) : CHeap :=
  { h with live := h.live.filter (fun e => e.1 ≠ p) }

/-- Read the buffer behind pointer `p`: `none` when `p` was freed
(dangling) or never allocated. -/
def CHeap.deref (h : CHeap) (p : Nat) : Option String :=
  (h.live.find? (fun e => e.1 = p)).map (fun e => e.2)

/-- Whether a host string contains an interior NUL byte, the one case
in which Rust's `CString::new` fails (mapped by error.rs's
`#[from] NulError` into `CpdbError::NulError`). -/
def hasNul (s : String) : Bool :=
  s.data.any (fun c => c = Char.ofNat 0)

end Cpdb

namespace Cpdb

/-- The state of a `PrintJob` (job.rs lines 6-9): the raw native job
pointer and the stored submission id (`-1` until submission). -/
structure PrintJobState where
  raw : Option Nat
  id : Int
  deriving DecidableEq, Repr

/-- The native entry points job.rs's `cancel` can invoke. -/
inductive JobNativeCall where
  | cancelJobById (id : Int)
  | deletePrintJob (p : Nat)
  deriving DecidableEq, Repr

/-- Outcome of one `PrintJob` operation: the returned `Result`, the
job state after the call, and the native calls made, in order. -/
structure JobStep where
  result : Result Unit
  state : PrintJobState
  calls : List JobNativeCall
  deriving Repr

namespace PrintJob

/-- `PrintJob::new` (job.rs lines 13-58), observed at the null check on
the native reply: a null `cpdb_new_print_job` reply is
`JobFailed("Creation failed")`, otherwise the wrapper starts with the
returned pointer and `id = -1`. -/
def new (nativeJob : Option Nat) : Result PrintJobState :=
  match nativeJob with
  | none => Except.error (CpdbError.JobFailed "Creation failed")
  | some p => Except.ok ⟨some p, -1⟩

/-- `PrintJob::submit` (job.rs lines 61-71): a negative native job id
is `JobFailed("Submission failed")`; any other id (zero included) is
stored and reported as success. -/
def submit (s : PrintJobState) (nativeJobId : Int) : Result Unit × PrintJobState :=
  if nativeJobId < 0 then
    (Except.error (CpdbError.JobFailed "Submission failed"), s)
  else
    (Except.ok (), { s with id := nativeJobId })

/-- `PrintJob::id` (job.rs lines 74-76): `Some(id)` exactly when the
stored id is strictly positive. -/
def id (s : PrintJobState) : Option Int :=
  if s.id > 0 then some s.id else none

/-- `PrintJob::cancel` (job.rs lines 79-93).  With a live handle it
cancels by id when `id > 0`, always deletes the native job, nulls the
pointer, resets `id` to `-1` and succeeds; with a null handle it makes
no native call and returns `JobFailed("Job already completed")`. -/
def cancel (s : PrintJobState) : JobStep :=
  match s.raw with
  | some p =>
      { result := Except.ok ()
        state := ⟨none, -1⟩
        calls := (if s.id > 0 then [JobNativeCall.cancelJobById s.id] else [])
                   ++ [JobNativeCall.deletePrintJob p] }
  | none =>
      { result := Except.error (CpdbError.JobFailed "Job already completed")
        state := s
        calls := [] }

/-- `Drop for PrintJob` (job.rs lines 96-102): best-effort cancel with
the result discarded (`let _ = self.cancel()`), no panic path. -/
def drop (s : PrintJobState) : PrintJobState × List JobNativeCall :=
  match s.raw with
  | some _ => ((cancel s).state, (cancel s).calls)
  | none => (s, [])

end PrintJob

/-- Number of `cpdb_delete_print_job` invocations in a native-call
trace (the double-free measure for C1). -/
def countDeletes (tr : List JobNativeCall) : Nat :=
  (tr.filter (fun c => match c with
    | JobNativeCall.deletePrintJob _ => true
    | _ => false)).length

end Cpdb

namespace Cpdb

/-- C4: `CpdbError::from_status` maps 0 to the null-handle kind
(`NullPointer`), 1 to `InvalidPrinter`, 2 to `JobFailed` carrying the
context, and every other status to `BackendError` with the code
embedded in the detail string. -/
theorem from_status_table (s : Int) (c : String)
    (h0 : s ≠ 0) (h1 : s ≠ 1) (h2 : s ≠ 2) :
    CpdbError.from_status 0 c = CpdbError.NullPointer ∧
    CpdbError.from_status 1 c = CpdbError.InvalidPrinter ∧
    CpdbError.from_status 2 c = CpdbError.JobFailed c ∧
    CpdbError.from_status s c
      = CpdbError.BackendError ("Unknown error: " ++ toString s) := by
  refine ⟨rfl, rfl, rfl, ?_⟩
  simp [CpdbError.from_status, h0, h1, h2]

/-- Witness for C4 at status 7 and context "ctx". -/
theorem from_status_table_witness :
    CpdbError.from_status 0 "ctx" = CpdbError.NullPointer ∧
    CpdbError.from_status 1 "ctx" = CpdbError.InvalidPrinter ∧
    CpdbError.from_status 2 "ctx" = CpdbError.JobFailed "ctx" ∧
    CpdbError.from_status 7 "ctx"
      = CpdbError.BackendError ("Unknown error: " ++ toString (7 : Int)) :=
  from_status_table 7 "ctx" (by decide) (by decide) (by decide)

end Cpdb

namespace Cpdb

/-- C1 counterexample: on the concrete job ⟨raw = some 1, id = 5⟩ the
first `cancel` succeeds but the second `cancel` returns the
`JobFailed("Job already completed")` error, so cancelling twice does
not return success both times. -/
theorem cancel_twice_second_errors :
    (PrintJob.cancel (PrintJob.cancel ⟨some 1, 5⟩).state).result
      = Except.error (CpdbError.JobFailed "Job already completed") := by
  rfl

/-- C1 (amended): for a job with a live handle, the first `cancel`
returns success; the second `cancel` (equally, a `cancel` after the
handle was released) returns the `JobFailed("Job already completed")`
error while performing no native call, and across both calls the
native job is deleted exactly once — no double-free and no panic. -/
theorem cancel_idempotence_amended (s : PrintJobState) (p : Nat)
    (h : s.raw = some p) :
    (PrintJob.cancel s).result = Except.ok () ∧
    (PrintJob.cancel (PrintJob.cancel s).state).result
      = Except.error (CpdbError.JobFailed "Job already completed") ∧
    (PrintJob.cancel (PrintJob.cancel s).state).calls = [] ∧
    countDeletes ((PrintJob.cancel s).calls
      ++ (PrintJob.cancel (PrintJob.cancel s).state).calls) = 1 := by
  obtain ⟨raw, jid⟩ := s
  simp only at h
  subst h
  refine ⟨rfl, rfl, rfl, ?_⟩
  by_cases hid : jid > 0 <;>
    simp [PrintJob.cancel, countDeletes, hid]

/-- Witness for C1 (amended) at the job ⟨some 1, 5⟩. -/
theorem cancel_idempotence_amended_witness :
    (PrintJob.cancel ⟨some 1, 5⟩).result = Except.ok () ∧
    (PrintJob.cancel (PrintJob.cancel ⟨some 1, 5⟩).state).result
      = Except.error (CpdbError.JobFailed "Job already completed") ∧
    (PrintJob.cancel (PrintJob.cancel ⟨some 1, 5⟩).state).calls = [] ∧
    countDeletes ((PrintJob.cancel ⟨some 1, 5⟩).calls
      ++ (PrintJob.cancel (PrintJob.cancel ⟨some 1, 5⟩).state).calls) = 1 :=
  cancel_idempotence_amended ⟨some 1, 5⟩ 1 rfl

/-- C10: `PrintJob::id` returns `Some` exactly when the stored
submission id is strictly positive; a fresh job built by `new` stores
`id = -1`; and `submit` treats the native job id 0 as success while
`id` on the resulting state still returns `None`. -/
theorem submit_zero_id_none (s : PrintJobState) (p : Nat) :
    ((PrintJob.id s).isSome ↔ s.id > 0) ∧
    PrintJob.new (some p) = Except.ok ⟨some p, -1⟩ ∧
    (PrintJob.submit s 0).1 = Except.ok () ∧
    PrintJob.id (PrintJob.submit s 0).2 = none := by
  refine ⟨?_, rfl, rfl, rfl⟩
  by_cases h : s.id > 0 <;> simp [PrintJob.id, h]

end Cpdb

namespace Cpdb

/-- A native C string as the wrapper can observe it: a byte sequence
that either decodes as UTF-8 (to `s`) or does not. -/
inductive CStr where
  | utf8 (s : String)
  | invalid
  deriving DecidableEq, Repr

/-- `util::cstr_to_string` (util.rs lines 7-16): null pointer is
`NullPointer`, an invalid byte sequence is `Utf8Error`, otherwise the
decoded string. -/
def cstr_to_string : Option CStr → Result String
  | none => Except.error CpdbError.NullPointer
  | some (CStr.utf8 s) => Except.ok s
  | some CStr.invalid => Except.error CpdbError.Utf8Error

/-- `util::cstr_to_string_and_g_free` (util.rs lines 18-31): same
observable result as `cstr_to_string` (the g_free of the native buffer
has no further effect visible to the caller). -/
def cstr_to_string_and_g_free : Option CStr → Result String
  | none => Except.error CpdbError.NullPointer
  | some (CStr.utf8 s) => Except.ok s
  | some CStr.invalid => Except.error CpdbError.Utf8Error

/-- The state of a `Printer` (printer.rs lines 8-10): one raw native
printer pointer. -/
structure PrinterState where
  raw : Option Nat
  deriving DecidableEq, Repr

/-- The native printer-lifecycle entry points of the spec's
acquire/release discipline.  printer.rs's `Clone` and `Drop` never
invoke any native entry point; the traces below record that. -/
inductive PrinterNativeCall where
  | acquirePrinter (p : Nat)
  | releasePrinter (p : Nat)
  deriving DecidableEq, Repr

/-- The native submission entry point printer.rs's `submit_job`
invokes: `cpdbPrintFileWithJobTitle(printer, file, title)` — its
signature carries no option array. -/
inductive PrinterSubmitCall where
  | printFileWithJobTitle (printer : Nat) (file : String) (title : String)
  deriving DecidableEq, Repr

namespace Printer

/-- `Printer::from_raw` (printer.rs lines 16-22): a null pointer is
rejected with `NullPointer`, never wrapped. -/
def from_raw : Option Nat → Result PrinterState
  | none => Except.error CpdbError.NullPointer
  | some p => Except.ok ⟨some p⟩

/-- `Printer::get_string_field` (printer.rs lines 24-39): a null
handle is a `BackendError`; a null native field pointer is converted
to the empty string (success); any other conversion error (bad UTF-8)
propagates. -/
def get_string_field (raw : Option Nat) (field : Option CStr)
    (field_name_for_error : String) : Result String :=
  match raw with
  | none => Except.error (CpdbError.BackendError
      ("Printer object pointer is null when accessing " ++ field_name_for_error))
  | some _ =>
    match cstr_to_string field with
    | Except.ok s => Except.ok s
    | Except.error CpdbError.NullPointer => Except.ok ""
    | Except.error e => Except.error e

/-- `Printer::id` (printer.rs lines 41-43); the native `id` field
value is passed in explicitly. -/
def id (raw : Option Nat) (field : Option CStr) : Result String :=
  get_string_field raw field "id"

/-- `Printer::name` (printer.rs lines 45-47). -/
def name (raw : Option Nat) (field : Option CStr) : Result String :=
  get_string_field raw field "name"

/-- `Printer::location` (printer.rs lines 49-51). -/
def location (raw : Option Nat) (field : Option CStr) : Result String :=
  get_string_field raw field "location"

/-- `Printer::description` (printer.rs lines 53-55, reading the
native `info` field). -/
def description (raw : Option Nat) (field : Option CStr) : Result String :=
  get_string_field raw field "info"

/-- `Printer::make_and_model` (printer.rs lines 57-59). -/
def make_and_model (raw : Option Nat) (field : Option CStr) : Result String :=
  get_string_field raw field "make_and_model"

/-- `Printer::get_updated_state` (printer.rs lines 65-73): a null
handle is a `BackendError`; otherwise the live `cpdbGetState` reply
goes through `cstr_to_string_and_g_free`, so a null reply is the
`NullPointer` error — not a defaulted value. -/
def get_updated_state (raw : Option Nat) (nativeState : Option CStr) : Result String :=
  match raw with
  | none => Except.error (CpdbError.BackendError
      "Printer object pointer is null for get_updated_state")
  | some _ => cstr_to_string_and_g_free nativeState

/-- `Printer::is_accepting_jobs` (printer.rs lines 75-83): a null
handle is a `BackendError`; otherwise the `cpdbIsAcceptingJobs` reply
(any integer) is returned as `Ok(reply != 0)` — there is no error
path for a non-null handle. -/
def is_accepting_jobs (raw : Option Nat) (nativeReply : Int) : Result Bool :=
  match raw with
  | none => Except.error (CpdbError.BackendError
      "Printer object pointer is null for is_accepting_jobs")
  | some _ => Except.ok (nativeReply != 0)

/-- `Printer::submit_job` (printer.rs lines 105-128).  The `_options`
parameter is never read: after the null-handle check and the two
`CString::new` conversions (file path and job name), the wrapper calls
`cpdbPrintFileWithJobTitle(raw, file, title)` and maps a null job-id
reply to a `BackendError`.  Returns the result together with the
native submission calls made. -/
def submit_job (raw : Option Nat) (file_path : String)
    (_options : List (String × String)) (job_name : String)
    (nativeJobIdReply : Option Nat) : Result Unit × List PrinterSubmitCall :=
  match raw with
  | none => (Except.error (CpdbError.BackendError
      "Printer object pointer is null for submit_job"), [])
  | some p =>
    if hasNul file_path then (Except.error CpdbError.NulError, [])
    else if hasNul job_name then (Except.error CpdbError.NulError, [])
    else
      match nativeJobIdReply with
      | none => (Except.error (CpdbError.BackendError
          "Job submission failed - no job ID returned"),
          [PrinterSubmitCall.printFileWithJobTitle p file_path job_name])
      | some _ => (Except.ok (),
          [PrinterSubmitCall.printFileWithJobTitle p file_path job_name])

/-- `Clone for Printer` (printer.rs lines 297-304): a null pointer
panics (`none` here); otherwise the pointer is aliased — the new
wrapper shares `raw` and NO native call is made. -/
def clone (s : PrinterState) : Option (PrinterState × List PrinterNativeCall) :=
  match s.raw with
  | none => none
  | some p => some (⟨some p⟩, [])

/-- `Drop for Printer` (printer.rs lines 289-295): the wrapper's
pointer is nulled and NO native call is made. -/
def drop (s : PrinterState) : PrinterState × List PrinterNativeCall :=
  match s.raw with
  | some _ => (⟨none⟩, [])
  | none => (s, [])

/-- `n` successive `clone` calls on `s`: the list of all `n + 1` live
wrappers and the concatenated native-call trace of the clones
(`none` when some clone panicked). -/
def cloneN (s : PrinterState) : Nat → Option (List PrinterState × List PrinterNativeCall)
  | 0 => some ([s], [])
  | n + 1 =>
    match cloneN s n with
    | none => none
    | some (hs, tr) =>
      match clone s with
      | none => none
      | some (c, tc) => some (c :: hs, tr ++ tc)

/-- Dropping every wrapper in a list: the concatenated native-call
trace of the drops. -/
def dropAll (hs : List PrinterState) : List PrinterNativeCall :=
  hs.foldr (fun h acc => (drop h).2 ++ acc) []

end Printer

/-- Number of native release calls in a printer native-call trace
(the balance measure for C2). -/
def countReleases (tr : List PrinterNativeCall) : Nat :=
  (tr.filter (fun c => match c with
    | PrinterNativeCall.releasePrinter _ => true
    | _ => false)).length

end Cpdb

namespace Cpdb

/-- Dropping printer wrappers emits no native call at all
(printer.rs's `Drop` only nulls the stored pointer). -/
theorem dropAll_eq_nil (hs : List PrinterState) : Printer.dropAll hs = [] := by
  induction hs with
  | nil => rfl
  | cons h t ih =>
    obtain ⟨raw⟩ := h
    cases raw <;> simp [Printer.dropAll, Printer.drop] at ih ⊢ <;> exact ih

/-- `n` clones of a live printer wrapper all alias the same pointer
and emit no native call. -/
theorem cloneN_replicate (p : Nat) (n : Nat) :
    Printer.cloneN ⟨some p⟩ n = some (List.replicate (n + 1) ⟨some p⟩, []) := by
  induction n with
  | zero => rfl
  | succ n ih =>
    simp [Printer.cloneN, ih, Printer.clone, List.replicate_succ]

/-- C2 counterexample: cloning the concrete printer ⟨some 1⟩ once and
then dropping both wrappers performs zero native release calls, not
the one release per clone the claim requires. -/
theorem printer_clone_once_zero_releases :
    Printer.cloneN ⟨some 1⟩ 1 = some ([⟨some 1⟩, ⟨some 1⟩], []) ∧
    countReleases (Printer.dropAll [⟨some 1⟩, ⟨some 1⟩]) = 0 :=
  ⟨rfl, rfl⟩

/-- C2 (amended): `Printer` uses shallow pointer aliasing, not
reference counting: `Clone` performs no native acquire, `Drop`
performs no native release (it only nulls the wrapper's pointer), so
after `n` clones of a live printer the combined native-call trace of
the clones and of dropping all `n + 1` wrappers is empty — zero
releases occur regardless of `n`. -/
theorem printer_clone_aliasing_no_release (s : PrinterState) (p : Nat)
    (h : s.raw = some p) (n : Nat) :
    Printer.cloneN s n = some (List.replicate (n + 1) ⟨some p⟩, []) ∧
    Printer.dropAll (List.replicate (n + 1) ⟨some p⟩) = [] ∧
    countReleases (Printer.dropAll (List.replicate (n + 1) ⟨some p⟩)) = 0 := by
  obtain ⟨raw⟩ := s
  simp only at h
  subst h
  exact ⟨cloneN_replicate p n, dropAll_eq_nil _, by rw [dropAll_eq_nil]; rfl⟩

/-- Witness for C2 (amended) at the printer ⟨some 1⟩ with 2 clones. -/
theorem printer_clone_aliasing_no_release_witness :
    Printer.cloneN ⟨some 1⟩ 2 = some (List.replicate 3 ⟨some 1⟩, []) ∧
    Printer.dropAll (List.replicate 3 ⟨some 1⟩) = [] ∧
    countReleases (Printer.dropAll (List.replicate 3 ⟨some 1⟩)) = 0 :=
  printer_clone_aliasing_no_release ⟨some 1⟩ 1 rfl 2

/-- C3 counterexample: `is_accepting_jobs` on a non-null handle maps
the native reply 0 — the value a failed native query yields — to the
defaulted success `Ok(false)`, not to a typed error. -/
theorem is_accepting_jobs_no_error_path :
    Printer.is_accepting_jobs (some 1) 0 = Except.ok false :=
  rfl

/-- C3 (amended): for a printer with a non-null handle, the optional
string field accessors (id, name, location, description,
make_and_model) return the empty string as success when the native
field pointer is null, and `get_updated_state` returns the typed
`NullPointer` error when the live native query returns null; but
`is_accepting_jobs` has no error path for a non-null handle — it
returns `Ok(reply != 0)` for every native integer reply, including
the failure value 0. -/
theorem accessors_default_live_queries (p : Nat) (fname : String) (i : Int) :
    Printer.get_string_field (some p) none fname = Except.ok "" ∧
    Printer.id (some p) none = Except.ok "" ∧
    Printer.name (some p) none = Except.ok "" ∧
    Printer.location (some p) none = Except.ok "" ∧
    Printer.description (some p) none = Except.ok "" ∧
    Printer.make_and_model (some p) none = Except.ok "" ∧
    Printer.get_updated_state (some p) none
      = Except.error CpdbError.NullPointer ∧
    Printer.is_accepting_jobs (some p) i = Except.ok (i != 0) :=
  ⟨rfl, rfl, rfl, rfl, rfl, rfl, rfl, rfl⟩

/-- C5 counterexample: submitting with the options
[("copies","1"), ("media","A4")] is indistinguishable — same result,
same native calls — from submitting with no options at all: the
option set is discarded, not attached. -/
theorem submit_job_discards_options :
    Printer.submit_job (some 1) "doc.pdf" [("copies", "1"), ("media", "A4")]
        "Job" (some 7)
      = Printer.submit_job (some 1) "doc.pdf" [] "Job" (some 7) :=
  rfl

/-- C5 (amended): `Printer::submit_job` ignores its `_options`
argument entirely — its result and native-call trace are independent
of the option list, and the single native call it makes,
`cpdbPrintFileWithJobTitle`, carries only the printer handle, the
file path and the job title. -/
theorem submit_job_options_independent (p : Nat) (file title : String)
    (opts opts2 : List (String × String)) (reply : Option Nat)
    (hf : hasNul file = false) (ht : hasNul title = false) :
    Printer.submit_job (some p) file opts title reply
      = Printer.submit_job (some p) file opts2 title reply ∧
    (Printer.submit_job (some p) file opts title reply).2
      = [PrinterSubmitCall.printFileWithJobTitle p file title] := by
  refine ⟨rfl, ?_⟩
  cases reply <;> simp [Printer.submit_job, hf, ht]

/-- Witness for C5 (amended) at printer 1, file "doc.pdf", title
"Job", options [("copies","1"), ("media","A4")] versus no options. -/
theorem submit_job_options_independent_witness :
    (Printer.submit_job (some 1) "doc.pdf" [("copies", "1"), ("media", "A4")]
        "Job" (some 7)
      = Printer.submit_job (some 1) "doc.pdf" [] "Job" (some 7)) ∧
    (Printer.submit_job (some 1) "doc.pdf" [("copies", "1"), ("media", "A4")]
        "Job" (some 7)).2
      = [PrinterSubmitCall.printFileWithJobTitle 1 "doc.pdf" "Job"] :=
  submit_job_options_independent 1 "doc.pdf" "Job"
    [("copies", "1"), ("media", "A4")] [] (some 7) (by decide) (by decide)

end Cpdb

namespace Cpdb

/-- The state of a `Settings` wrapper (settings.rs lines 8-10): one
raw native settings pointer. -/
structure SettingsState where
  raw : Option Nat
  deriving DecidableEq, Repr

namespace Settings

/-- `Settings::copy` (settings.rs lines 29-41): a null handle is
`NullPointer`; a null `cpdbCopySettings` reply is
`BackendError("Failed to copy settings")`; otherwise the copy wraps
the returned pointer. -/
def copy (s : SettingsState) (nativeCopyReply : Option Nat) : Result SettingsState :=
  match s.raw with
  | none => Except.error CpdbError.NullPointer
  | some _ =>
    match nativeCopyReply with
    | none => Except.error (CpdbError.BackendError "Failed to copy settings")
    | some q => Except.ok ⟨some q⟩

/-- `Clone for Settings` (settings.rs lines 133-137):
`self.copy().expect("Failed to clone settings")` — when `copy` fails
the thread panics, modelled as `none`. -/
def clone (s : SettingsState) (nativeCopyReply : Option Nat) : Option SettingsState :=
  match copy s nativeCopyReply with
  | Except.ok t => some t
  | Except.error _ => none

end Settings

/-- `Drop for Printer` never raises: both branches return normally. -/
theorem printer_drop_no_calls (t : PrinterState) : (Printer.drop t).2 = [] := by
  obtain ⟨raw⟩ := t
  cases raw <;> rfl

/-- C8 counterexample: on the concrete live settings object ⟨some 1⟩,
when the native `cpdbCopySettings` reply is null (a failed native
copy — an expected failure path), `Clone for Settings` panics
(`none`) instead of returning a typed failure. -/
theorem settings_clone_panics_on_failed_copy :
    Settings.clone ⟨some 1⟩ none = none :=
  rfl

/-- C8 (amended): the fallible operations return typed failures
(`Settings::copy` yields `NullPointer` on a null handle and
`BackendError` on a failed native copy) and teardown never raises
(`Drop for PrintJob` swallows the cancel result and always ends with
a nulled pointer, `Drop for Printer` makes no native call); however
`Clone for Settings` panics when the native copy fails, and `Clone
for Printer` panics on a null handle, rather than returning a typed
failure. -/
theorem clone_panic_paths (p q : Nat) (s : PrintJobState) (t : PrinterState) :
    Settings.copy ⟨none⟩ (some q) = Except.error CpdbError.NullPointer ∧
    Settings.copy ⟨some p⟩ none
      = Except.error (CpdbError.BackendError "Failed to copy settings") ∧
    Settings.clone ⟨some p⟩ (some q) = some ⟨some q⟩ ∧
    Settings.clone ⟨some p⟩ none = none ∧
    Printer.clone ⟨none⟩ = none ∧
    (PrintJob.drop s).1.raw = none ∧
    (Printer.drop t).2 = [] := by
  refine ⟨rfl, rfl, rfl, rfl, rfl, ?_, printer_drop_no_calls t⟩
  obtain ⟨raw, jid⟩ := s
  cases raw <;> rfl

end Cpdb

namespace Cpdb

namespace Frontend

/-- The `object_description` string `Frontend::get_printer` formats
for a failed lookup: `format!("Printer with name '{}'", name)`. -/
def printer_not_found_description (name : String) : String :=
  "Printer with name " ++ (Char.ofNat 39).toString ++ name ++ (Char.ofNat 39).toString

/-- `Frontend::get_printer` (frontend.rs lines 109-120): the name is
converted by `CString::new` (interior NUL fails the call), the native
`cpdbGetPrinter(raw, name)` lookup reply is taken as is; a null reply
is reported as `CpdbError::ObjectNotFound` carrying the formatted
printer name — a variant error.rs does not declare — and a non-null
reply goes through `Printer::from_raw`.  There is no null check on
the frontend handle itself. -/
def get_printer (raw : Option Nat) (name : String)
    (cpdbGetPrinter : Option Nat → String → Option Nat) : Result PrinterState :=
  if hasNul name then Except.error CpdbError.NulError
  else
    match cpdbGetPrinter raw name with
    | none => Except.error
        (CpdbError.ObjectNotFound (printer_not_found_description name))
    | some p => Printer.from_raw (some p)

/-- A native lookup table that knows no printer at all. -/
def emptyLookup : Option Nat → String → Option Nat :=
  fun _ _ => none

end Frontend

/-- C6 counterexample: on the concrete lookup of the unknown name
"unknown", `get_printer` fails with
`ObjectNotFound("Printer with name 'unknown'")` — not with the
`InvalidPrinter` kind the claim names. -/
theorem get_printer_unknown_object_not_found :
    Frontend.get_printer (some 1) "unknown" Frontend.emptyLookup
      = Except.error (CpdbError.ObjectNotFound
          (Frontend.printer_not_found_description "unknown")) :=
  rfl

/-- C6 (amended): for every name not known to the native lookup,
`Frontend::get_printer` fails with the `ObjectNotFound` error kind
carrying the quoted printer name (a variant frontend.rs constructs
although error.rs never declares it, so the crate does not compile as
written) — not with `InvalidPrinter` — and that failure is distinct
from `InvalidPrinter` and from every transport-level
`FrontendError`. -/
theorem get_printer_not_found_kind (raw : Option Nat) (name : String)
    (lookup : Option Nat → String → Option Nat)
    (hn : hasNul name = false) (hl : lookup raw name = none) :
    Frontend.get_printer raw name lookup
      = Except.error (CpdbError.ObjectNotFound
          (Frontend.printer_not_found_description name)) ∧
    CpdbError.ObjectNotFound (Frontend.printer_not_found_description name)
      ≠ CpdbError.InvalidPrinter ∧
    (∀ d : String,
      CpdbError.ObjectNotFound (Frontend.printer_not_found_description name)
        ≠ CpdbError.FrontendError d) := by
  refine ⟨?_, by simp, fun d => by simp⟩
  simp [Frontend.get_printer, hn, hl]

/-- Witness for C6 (amended) at frontend handle 1, name "unknown" and
the empty native lookup. -/
theorem get_printer_not_found_kind_witness :
    (Frontend.get_printer (some 1) "unknown" Frontend.emptyLookup
      = Except.error (CpdbError.ObjectNotFound
          (Frontend.printer_not_found_description "unknown"))) ∧
    CpdbError.ObjectNotFound (Frontend.printer_not_found_description "unknown")
      ≠ CpdbError.InvalidPrinter ∧
    (∀ d : String,
      CpdbError.ObjectNotFound (Frontend.printer_not_found_description "unknown")
        ≠ CpdbError.FrontendError d) :=
  get_printer_not_found_kind (some 1) "unknown" Frontend.emptyLookup
    (by decide) rfl

end Cpdb

namespace Cpdb

/-- The native option struct `cpdb_option_t` as util.rs fills it
(lines 48-54): the name and default-value string pointers, with
`group_name` and `supported_values` null and `num_supported` 0. -/
structure cpdb_option_t where
  option_name : Nat
  default_value : Nat
  group_name : Option Nat
  num_supported : Int
  supported_values : Option Nat
  deriving DecidableEq, Repr

/-- The loop of `util::to_c_options` (util.rs lines 39-55): for each
(key, value) pair, `CString::new` both strings (an interior NUL fails
the call, dropping every `CString` allocated so far), push the two
`CString`s into the local `cstring_holder`, and push a
`cpdb_option_t` holding their raw pointers.  Returns the holder's
buffer ids, the option array and the heap. -/
def to_c_options_loop (h : CHeap) :
    List (String × String) → Except CpdbError (List Nat × List cpdb_option_t) × CHeap
  | [] => (Except.ok ([], []), h)
  | (key, value) :: rest =>
    if hasNul key then (Except.error CpdbError.NulError, h)
    else if hasNul value then (Except.error CpdbError.NulError, h)
    else
      let ka := CHeap.alloc h key
      let va := CHeap.alloc ka.2 value
      match to_c_options_loop va.2 rest with
      | (Except.ok (holder, copts), h3) =>
          (Except.ok (ka.1 :: va.1 :: holder,
            ⟨ka.1, va.1, none, 0, none⟩ :: copts), h3)
      | (Except.error e, h3) =>
          (Except.error e, CHeap.free (CHeap.free h3 va.1) ka.1)

/-- `util::to_c_options` (util.rs lines 33-57).  The function returns
only the `cpdb_option_t` array; `cstring_holder` is a local that goes
out of scope when the function returns, so every backing `CString`
buffer is freed at that point (and `util::free_c_options`, lines
58-59, is an empty no-op).  The returned array therefore holds
pointers into freed buffers. -/
def to_c_options (options : List (String × String)) (h : CHeap) :
    Except CpdbError (List cpdb_option_t) × CHeap :=
  match to_c_options_loop h options with
  | (Except.ok (cstring_holder, c_options), h2) =>
      (Except.ok c_options, cstring_holder.foldl CHeap.free h2)
  | (Except.error e, h2) => (Except.error e, h2)

/-- Reading one marshalled option back through its pointers: the key
and value strings, or `none` when either pointer dangles. -/
def read_option (h : CHeap) (o : cpdb_option_t) : Option (String × String) :=
  match CHeap.deref h o.option_name, CHeap.deref h o.default_value with
  | some k, some v => some (k, v)
  | _, _ => none

/-- C7, evaluated at the failing input
[("copies","1"), ("media","A4")] on a fresh heap: `to_c_options`
returns the two-entry option array successfully, but by the time it
returns every backing string buffer has been freed (the live heap is
empty), so reading either option back through the array's pointers
yields nothing — not copies=1 and media=A4.  The buffers do not
remain valid until after the native call. -/
theorem to_c_options_dangles :
    (to_c_options [("copies", "1"), ("media", "A4")] ⟨0, []⟩).1
      = Except.ok [⟨0, 1, none, 0, none⟩, ⟨2, 3, none, 0, none⟩] ∧
    (to_c_options [("copies", "1"), ("media", "A4")] ⟨0, []⟩).2.live = [] ∧
    read_option (to_c_options [("copies", "1"), ("media", "A4")] ⟨0, []⟩).2
      ⟨0, 1, none, 0, none⟩ = none ∧
    read_option (to_c_options [("copies", "1"), ("media", "A4")] ⟨0, []⟩).2
      ⟨2, 3, none, 0, none⟩ = none := by
  refine ⟨rfl, rfl, rfl, rfl⟩

/-- The same marshalling discipline done right, for contrast: inside
`to_c_options_loop` — before the function returns and the holder is
dropped — both buffers of each marshalled option are still live and
read back exactly as copies=1 and media=A4. -/
theorem to_c_options_loop_buffers_live :
    (to_c_options_loop ⟨0, []⟩ [("copies", "1"), ("media", "A4")]).1
      = Except.ok ([0, 1, 2, 3],
          [⟨0, 1, none, 0, none⟩, ⟨2, 3, none, 0, none⟩]) ∧
    read_option (to_c_options_loop ⟨0, []⟩ [("copies", "1"), ("media", "A4")]).2
      ⟨0, 1, none, 0, none⟩ = some ("copies", "1") ∧
    read_option (to_c_options_loop ⟨0, []⟩ [("copies", "1"), ("media", "A4")]).2
      ⟨2, 3, none, 0, none⟩ = some ("media", "A4") := by
  refine ⟨rfl, rfl, rfl⟩

end Cpdb

namespace Cpdb

/-- Modelled from the spec: the streaming discovery bridge.  The
`Frontend::get_printers_channel` method that tests/integration.rs
calls is absent from src/src/frontend.rs, so this follows §4.4
(Streaming): a persistent native callback forwards each discovered
handle — or the error for that printer — onto an unbounded ordered
channel, modelled as the list of items in native emission order; the
consumer pulls them one by one.  A callback invocation with a
malformed (null) handle contributes one erroring item via
`Printer::from_raw` and the stream continues. -/
def get_printers_channel (callbacks : List (Option Nat)) : List (Result PrinterState) :=
  callbacks.map Printer.from_raw

/-- C9: when the native callback fires for printers P1, P2, P3 in
that order and the middle invocation fails (malformed handle), the
channel consumer observes exactly three items, in discovery order,
the middle one an erroring item and the other two successful printer
values; in general the stream delivers exactly one item per callback
invocation. -/
theorem streaming_discovery_isolates_failure (p1 p3 : Nat) :
    get_printers_channel [some p1, none, some p3]
      = [Except.ok ⟨some p1⟩,
         Except.error CpdbError.NullPointer,
         Except.ok ⟨some p3⟩] ∧
    (get_printers_channel [some p1, none, some p3]).length = 3 ∧
    (∀ callbacks : List (Option Nat),
      (get_printers_channel callbacks).length = callbacks.length) :=
  ⟨rfl, rfl, fun callbacks => List.length_map callbacks Printer.from_raw⟩

end Cpdb
